import Mathlib

/-!
Verification of the generator-to-callback bridge of zc.ngi
(src/zc/ngi/generator.py): a shallow embedding of the `Handler`
coroutine adapter and of the `ConnectionHandler` driver, with proofs
of the specified properties.

Modelling choices.  A protocol routine (Python generator body) is a
machine: a function from a suspension state and a resume operation
(`next`, `send data`, `throw exc`) to an outcome — either it suspends
again with a new state (a `yield`) or it raises an exception; normal
termination of a generator surfaces at the call site as a raised
`StopIteration`, exactly as in Python.  A generator object wraps a
machine state with CPython's finished-generator behaviour: resuming a
finished generator raises `StopIteration`, throwing into a finished
generator re-raises the thrown exception.  Connections are opaque
values; the driver records every operation it performs on a
connection (`setHandler`, `close`) and every operation it performs on
the generator, so the theorems can speak about exactly which calls
were made, on which object, and in which order.  An absent `gen`
attribute (never assigned in `__init__`) is modelled as `none`; a
method touching it then raises `AttributeError`, as in Python.
-/

namespace ZcNgi

variable {σ Data C V : Type}

/-- Exceptions the driver distinguishes: `StopIteration` (normal
generator termination), `GeneratorExit reason` (the cancellation
signal thrown on close), `AttributeError` (lookup of a never-assigned
attribute), and arbitrary other exceptions. -/
inductive Exn where
  | stopIteration
  | generatorExit (reason : Nat)
  | attributeError
  | other (code : Nat)
deriving DecidableEq

/-- A resume operation performed on a generator object:
`gen.next()`, `gen.send(d)`, or `gen.throw(e.__class__, e)`. -/
inductive Resume (Data : Type) where
  | next
  | send (d : Data)
  | throwE (e : Exn)
deriving DecidableEq

/-- Outcome of resuming a routine at a suspension state: it reaches
the next `yield` with a new suspension state, or an exception
propagates out of it (normal termination raises `stopIteration`). -/
inductive Outcome (σ : Type) where
  | yielded (s : σ)
  | raised (e : Exn)
deriving DecidableEq

/-- A protocol routine body: what the user code does at each
suspension state for each resume operation. -/
def Machine (σ Data : Type) : Type :=
  σ → Resume Data → Outcome σ

/-- State of a generator object: suspended at a machine state, or
finished (terminated or exhausted by a propagated exception). -/
inductive GenState (σ : Type) where
  | suspended (s : σ)
  | finished
deriving DecidableEq

/-- CPython generator-object semantics over a machine: one resume
call returns the updated generator state and `some e` when the call
raised `e` (`none` when it yielded).  An exception propagating out of
a generator finishes it; resuming a finished generator raises
`StopIteration`; throwing into a finished generator re-raises the
thrown exception. -/
def genResume (m : Machine σ Data) : GenState σ → Resume Data → GenState σ × Option Exn
  | .suspended s, r =>
      match m s r with
      | .yielded s' => (.suspended s', none)
      | .raised e => (.finished, some e)
  | .finished, .next => (.finished, some .stopIteration)
  | .finished, .send _ => (.finished, some .stopIteration)
  | .finished, .throwE e => (.finished, some e)

/-- An operation the driver can perform on a connection object:
`connection.setHandler(self)` or `connection.close()`. -/
inductive ConnOp where
  | setHandler
  | close
deriving DecidableEq

/-- The driver object.  Its only attribute is `gen`; `none` models
the attribute never having been assigned (priming terminated). -/
structure ConnectionHandler (σ : Type) where
  gen : Option (GenState σ)
deriving DecidableEq

/-- Result of running one driver entry point: the operations
performed on connections (with the connection they were called on),
the resume operations performed on the generator, the exception
propagating out to the caller (if any), and the driver afterwards. -/
structure StepResult (σ Data C : Type) where
  ops : List (C × ConnOp)
  genOps : List (Resume Data)
  raised : Option Exn
  driver : ConnectionHandler σ
deriving DecidableEq

/-- `ConnectionHandler.__init__(gen, connection)`: prime with
`gen.next()`; on `StopIteration` return (no attribute assigned, the
connection untouched); on a yield, assign `self.gen` and call
`connection.setHandler(self)`; any other exception propagates. -/
def ConnectionHandler.init (m : Machine σ Data) (g : GenState σ) (c : C) :
    StepResult σ Data C :=
  match genResume m g .next with
  | (g', none) => ⟨[(c, .setHandler)], [.next], none, ⟨some g'⟩⟩
  | (_, some .stopIteration) => ⟨[], [.next], none, ⟨none⟩⟩
  | (_, some e) => ⟨[], [.next], some e, ⟨none⟩⟩

/-- `handle_input(connection, data)`: `self.gen.send(data)`; on
`StopIteration` call `connection.close()`; a yield leaves the driver
waiting; any other exception propagates. -/
def ConnectionHandler.handle_input (m : Machine σ Data) (d : ConnectionHandler σ)
    (c : C) (data : Data) : StepResult σ Data C :=
  match d.gen with
  | none => ⟨[], [], some .attributeError, d⟩
  | some g =>
      match genResume m g (.send data) with
      | (g', none) => ⟨[], [.send data], none, ⟨some g'⟩⟩
      | (g', some .stopIteration) => ⟨[(c, .close)], [.send data], none, ⟨some g'⟩⟩
      | (g', some e) => ⟨[], [.send data], some e, ⟨some g'⟩⟩

/-- `handle_close(connection, reason)`: throw
`GeneratorExit(reason)` into the generator; `GeneratorExit` and
`StopIteration` coming back out are passed over; anything else
propagates. -/
def ConnectionHandler.handle_close (m : Machine σ Data) (d : ConnectionHandler σ)
    (c : C) (reason : Nat) : StepResult σ Data C :=
  match d.gen with
  | none => ⟨[], [], some .attributeError, d⟩
  | some g =>
      match genResume m g (.throwE (.generatorExit reason)) with
      | (g', none) => ⟨[], [.throwE (.generatorExit reason)], none, ⟨some g'⟩⟩
      | (g', some .stopIteration) => ⟨[], [.throwE (.generatorExit reason)], none, ⟨some g'⟩⟩
      | (g', some (.generatorExit _)) => ⟨[], [.throwE (.generatorExit reason)], none, ⟨some g'⟩⟩
      | (g', some e) => ⟨[], [.throwE (.generatorExit reason)], some e, ⟨some g'⟩⟩

/-- `handle_exception(connection, exception)`: throw the exception
into the generator with no try block at all — whatever comes back out
(including `StopIteration`) propagates, and nothing else is done. -/
def ConnectionHandler.handle_exception (m : Machine σ Data) (d : ConnectionHandler σ)
    (c : C) (e : Exn) : StepResult σ Data C :=
  match d.gen with
  | none => ⟨[], [], some .attributeError, d⟩
  | some g =>
      match genResume m g (.throwE e) with
      | (g', r) => ⟨[], [.throwE e], r, ⟨some g'⟩⟩

/-- A connection event a dispatcher can deliver to the driver. -/
inductive Event (Data C : Type) where
  | input (c : C) (d : Data)
  | closeEv (c : C) (reason : Nat)
  | exc (c : C) (e : Exn)
deriving DecidableEq

/-- Dispatch one event to the corresponding driver entry point. -/
def ConnectionHandler.handleEvent (m : Machine σ Data) (d : ConnectionHandler σ) :
    Event Data C → StepResult σ Data C
  | .input c data => ConnectionHandler.handle_input m d c data
  | .closeEv c reason => ConnectionHandler.handle_close m d c reason
  | .exc c e => ConnectionHandler.handle_exception m d c e

/-- Accumulated observations of a sequence of events: all connection
operations, all generator resume operations, and the final driver. -/
structure RunResult (σ Data C : Type) where
  ops : List (C × ConnOp)
  genOps : List (Resume Data)
  driver : ConnectionHandler σ
deriving DecidableEq

/-- Deliver a list of events in order (the dispatcher may keep
delivering whatever it likes), concatenating the traces. -/
def ConnectionHandler.run (m : Machine σ Data) (d : ConnectionHandler σ) :
    List (Event Data C) → RunResult σ Data C
  | [] => ⟨[], [], d⟩
  | e :: evs =>
      let r := ConnectionHandler.handleEvent m d e
      let rest := ConnectionHandler.run m r.driver evs
      ⟨r.ops ++ rest.ops, r.genOps ++ rest.genOps, rest.driver⟩

/-- The coroutine adapter object: `self.func` produces the initial
suspension state of a fresh routine from the call arguments, and
`self.connection_adapter` is the optional connection transform. -/
structure Handler (V σ : Type) where
  func : List V → σ
  connection_adapter : Option (V → V)

/-- `Handler.__call__(*args)`: if a transform is configured, replace
the final positional argument by its transform; build the routine
from the (possibly rewritten) arguments and construct a
`ConnectionHandler` on it and the final argument. -/
def Handler.call (m : Machine σ Data) (h : Handler V σ) (args : List V)
    (hne : args ≠ []) : StepResult σ Data V :=
  match h.connection_adapter with
  | none =>
      ConnectionHandler.init m (.suspended (h.func args)) (args.getLast hne)
  | some f =>
      ConnectionHandler.init m
        (.suspended (h.func (args.dropLast ++ [f (args.getLast hne)])))
        ((args.dropLast ++ [f (args.getLast hne)]).getLast (by simp))

/-- `Handler.__get__(inst, class_)`: on the class (`inst is None`)
the adapter itself is returned; on an instance, a one-argument
closure over `inst` that transforms the connection (when configured)
and constructs the `ConnectionHandler` the same way. -/
def Handler.get (m : Machine σ Data) (h : Handler V σ) (inst : Option V) :
    Handler V σ ⊕ (V → StepResult σ Data V) :=
  match inst with
  | none => Sum.inl h
  | some i =>
      match h.connection_adapter with
      | some f =>
          Sum.inr (fun connection =>
            let connection' := f connection
            ConnectionHandler.init m (.suspended (h.func [i, connection'])) connection')
      | none =>
          Sum.inr (fun connection =>
            ConnectionHandler.init m (.suspended (h.func [i, connection])) connection)

/-- The module-level `handler(func=None, connection_adapter=None)`
decorator: with a function it builds the adapter directly, without
one it returns a configurator awaiting the function. -/
def handler (func : Option (List V → σ)) (connection_adapter : Option (V → V)) :
    Handler V σ ⊕ ((List V → σ) → Handler V σ) :=
  match func with
  | none => Sum.inr (fun f => ⟨f, connection_adapter⟩)
  | some f => Sum.inl ⟨f, connection_adapter⟩

/-! Concrete machines used by the witnesses and the counterexample. -/

/-- A routine that terminates immediately: every resume raises
`StopIteration` (`def r(c): return; yield` in Python). -/
def mStop : Machine Unit Nat :=
  fun _ _ => .raised .stopIteration

/-- A routine that suspends on priming and terminates on the first
input; thrown exceptions propagate unhandled. -/
def mOnce : Machine Unit Nat :=
  fun s r =>
    match r with
    | .next => .yielded s
    | .send _ => .raised .stopIteration
    | .throwE e => .raised e

/-- A routine that suspends forever, remembering the last datum in
its state; thrown exceptions propagate unhandled. -/
def mLoop : Machine Nat Nat :=
  fun s r =>
    match r with
    | .next => .yielded s
    | .send d => .yielded d
    | .throwE e => .raised e

/-- A routine that catches the close cancellation and returns
normally (its `GeneratorExit` handler runs and the routine ends). -/
def mCatch : Machine Unit Nat :=
  fun s r =>
    match r with
    | .next => .yielded s
    | .send _ => .yielded s
    | .throwE _ => .raised .stopIteration

/-- A routine that reacts to any thrown exception by raising a
different failure of its own. -/
def mReraise : Machine Unit Nat :=
  fun s r =>
    match r with
    | .next => .yielded s
    | .send _ => .yielded s
    | .throwE _ => .raised (.other 7)

/-! Helper lemmas shared by several of the claim theorems. -/

/-- A close event never makes the driver perform a connection
operation, whatever the routine does. -/
theorem handleClose_ops_nil (m : Machine σ Data) (d : ConnectionHandler σ)
    (c : C) (reason : Nat) :
    (ConnectionHandler.handle_close m d c reason).ops = [] := by
  rcases d with ⟨_ | g⟩
  · rfl
  · rcases hr : genResume m g (.throwE (.generatorExit reason)) with ⟨g', oe⟩
    rcases oe with _ | e
    · simp [ConnectionHandler.handle_close, hr]
    · cases e <;> simp [ConnectionHandler.handle_close, hr]

/-- An exception event never makes the driver perform a connection
operation, whatever the routine does. -/
theorem handleException_ops_nil (m : Machine σ Data) (d : ConnectionHandler σ)
    (c : C) (e : Exn) :
    (ConnectionHandler.handle_exception m d c e).ops = [] := by
  rcases d with ⟨_ | g⟩
  · rfl
  · rcases hr : genResume m g (.throwE e) with ⟨g', oe⟩
    simp [ConnectionHandler.handle_exception, hr]

/-- Construction performs either exactly the `setHandler`
registration or no connection operation at all. -/
theorem init_ops_eq (m : Machine σ Data) (g : GenState σ) (c : C) :
    (ConnectionHandler.init m g c).ops = [(c, ConnOp.setHandler)] ∨
      (ConnectionHandler.init m g c).ops = [] := by
  rcases hr : genResume m g .next with ⟨g', oe⟩
  rcases oe with _ | e
  · left; simp [ConnectionHandler.init, hr]
  · right; cases e <;> simp [ConnectionHandler.init, hr]

/-- An input event performs no connection operation unless the
resume raised `StopIteration`, in which case it performs exactly one
`close()` on the connection that came with the event. -/
theorem handleInput_ops_eq (m : Machine σ Data) (d : ConnectionHandler σ)
    (c : C) (data : Data) :
    (ConnectionHandler.handle_input m d c data).ops = [] ∨
    ((ConnectionHandler.handle_input m d c data).ops = [(c, ConnOp.close)] ∧
      ∃ g g', d.gen = some g ∧
        genResume m g (.send data) = (g', some Exn.stopIteration)) := by
  rcases d with ⟨_ | g⟩
  · left; rfl
  · rcases hr : genResume m g (.send data) with ⟨g', oe⟩
    rcases oe with _ | e
    · left; simp [ConnectionHandler.handle_input, hr]
    · cases e with
      | stopIteration =>
          right
          exact ⟨by simp [ConnectionHandler.handle_input, hr], g, g', rfl, hr⟩
      | generatorExit r => left; simp [ConnectionHandler.handle_input, hr]
      | attributeError => left; simp [ConnectionHandler.handle_input, hr]
      | other code => left; simp [ConnectionHandler.handle_input, hr]

/-- Every connection operation any single event can cause is a
`close`. -/
theorem handleEvent_ops_close (m : Machine σ Data) (d : ConnectionHandler σ)
    (e : Event Data C) (p : C × ConnOp)
    (hp : p ∈ (ConnectionHandler.handleEvent m d e).ops) : p.2 = ConnOp.close := by
  cases e with
  | input c data =>
      rcases handleInput_ops_eq m d c data with h | ⟨h, _⟩ <;>
        rw [ConnectionHandler.handleEvent] at hp <;> rw [h] at hp
      · cases hp
      · rw [List.mem_singleton.1 hp]
  | closeEv c reason =>
      rw [ConnectionHandler.handleEvent, handleClose_ops_nil] at hp
      cases hp
  | exc c e' =>
      rw [ConnectionHandler.handleEvent, handleException_ops_nil] at hp
      cases hp

/-- Every connection operation in the trace of a whole run of events
is a `close`. -/
theorem run_ops_close (m : Machine σ Data) (d : ConnectionHandler σ)
    (evs : List (Event Data C)) (p : C × ConnOp)
    (hp : p ∈ (ConnectionHandler.run m d evs).ops) : p.2 = ConnOp.close := by
  induction evs generalizing d with
  | nil => cases hp
  | cons e evs ih =>
      rw [ConnectionHandler.run] at hp
      rcases List.mem_append.1 hp with h | h
      · exact handleEvent_ops_close m d e p h
      · exact ih _ h

/-! The claim theorems. -/

/-- C1: constructing a Driver registers it via `setHandler` if and
only if the routine suspends (does not terminate) on its priming
step, and when priming raises `StopIteration` no operation at all is
performed on the connection. -/
theorem C1_register_iff_priming_suspends (m : Machine σ Data) (g : σ) (c : C) :
    ((c, ConnOp.setHandler) ∈ (ConnectionHandler.init m (.suspended g) c).ops ↔
      ∃ s', m g .next = .yielded s') ∧
    (m g .next = .raised .stopIteration →
      (ConnectionHandler.init m (.suspended g) c).ops = []) := by
  cases h : m g .next with
  | yielded s' => simp [ConnectionHandler.init, genResume, h]
  | raised e => cases e <;> simp [ConnectionHandler.init, genResume, h]

/-- Witness for C1 at a routine that terminates during priming. -/
theorem C1_register_iff_priming_suspends_witness :
    (ConnectionHandler.init mStop (.suspended ()) (5 : Nat)).ops = [] :=
  (C1_register_iff_priming_suspends mStop () 5).2 rfl

/-- C2: when the routine terminates normally on an input's data, that
input event performs exactly one `close()` (and raises nothing), and
the input path is the only entry point that can ever emit a `close`:
close and exception events never perform a connection operation, and
construction never emits a `close`. -/
theorem C2_close_exactly_once_on_input_termination
    (m : Machine σ Data) (g : σ) (c : C) (data : Data)
    (hterm : m g (.send data) = .raised .stopIteration) :
    ((ConnectionHandler.handle_input m ⟨some (.suspended g)⟩ c data).ops
        = [(c, ConnOp.close)]) ∧
    ((ConnectionHandler.handle_input m ⟨some (.suspended g)⟩ c data).raised = none) ∧
    (∀ (d : ConnectionHandler σ) (c' : C) (reason : Nat),
      (ConnectionHandler.handle_close m d c' reason).ops = []) ∧
    (∀ (d : ConnectionHandler σ) (c' : C) (e : Exn),
      (ConnectionHandler.handle_exception m d c' e).ops = []) ∧
    (∀ (g' : GenState σ) (c' : C),
      (c', ConnOp.close) ∉ (ConnectionHandler.init m g' c').ops) := by
  refine ⟨?_, ?_, handleClose_ops_nil m, handleException_ops_nil m, ?_⟩
  · simp [ConnectionHandler.handle_input, genResume, hterm]
  · simp [ConnectionHandler.handle_input, genResume, hterm]
  · intro g' c' hmem
    rcases init_ops_eq m g' c' with h | h <;> rw [h] at hmem
    · simp at hmem
    · cases hmem

/-- Witness for C2 at a routine that terminates on its first input. -/
theorem C2_close_exactly_once_on_input_termination_witness :
    (ConnectionHandler.handle_input mOnce ⟨some (.suspended ())⟩ (4 : Nat) 9).ops
      = [(4, ConnOp.close)] :=
  (C2_close_exactly_once_on_input_termination mOnce () 4 9 rfl).1

/-- C3: on a close event, a routine that returns after catching the
cancellation (`StopIteration` comes back out) or that lets the
cancellation propagate unhandled (`GeneratorExit` comes back out)
causes no `close()`, no connection operation, and no failure raised
to the caller; any other exception coming back out propagates
unswallowed. -/
theorem C3_close_event_cancellation_outcomes
    (m : Machine σ Data) (g : σ) (c : C) (reason : Nat) :
    ((m g (.throwE (.generatorExit reason)) = .raised .stopIteration →
      (ConnectionHandler.handle_close m ⟨some (.suspended g)⟩ c reason).ops = [] ∧
      (ConnectionHandler.handle_close m ⟨some (.suspended g)⟩ c reason).raised = none)) ∧
    (∀ r', m g (.throwE (.generatorExit reason)) = .raised (.generatorExit r') →
      (ConnectionHandler.handle_close m ⟨some (.suspended g)⟩ c reason).ops = [] ∧
      (ConnectionHandler.handle_close m ⟨some (.suspended g)⟩ c reason).raised = none) ∧
    (∀ e, m g (.throwE (.generatorExit reason)) = .raised e →
      e ≠ .stopIteration → (∀ r', e ≠ .generatorExit r') →
      (ConnectionHandler.handle_close m ⟨some (.suspended g)⟩ c reason).raised = some e) := by
  refine ⟨fun h => ?_, fun r' h => ?_, fun e h h1 h2 => ?_⟩
  · simp [ConnectionHandler.handle_close, genResume, h]
  · simp [ConnectionHandler.handle_close, genResume, h]
  · cases e with
    | stopIteration => exact absurd rfl h1
    | generatorExit r' => exact absurd rfl (h2 r')
    | attributeError => simp [ConnectionHandler.handle_close, genResume, h]
    | other code => simp [ConnectionHandler.handle_close, genResume, h]

/-- Witness for C3 at a routine that catches the cancellation and
returns normally. -/
theorem C3_close_event_cancellation_outcomes_witness :
    (ConnectionHandler.handle_close mCatch ⟨some (.suspended ())⟩ (2 : Nat) 4).ops = [] ∧
    (ConnectionHandler.handle_close mCatch ⟨some (.suspended ())⟩ (2 : Nat) 4).raised = none :=
  (C3_close_event_cancellation_outcomes mCatch () 2 4).1 rfl

/-- C4: an exception event performs exactly one `gen.throw` of the
delivered exception into the routine's suspension point, performs no
connection operation, catches nothing (whatever the routine raises —
including the `StopIteration` of normal termination — comes out
unmodified), and a routine that suspends again leaves the driver
active at the new suspension state with nothing raised. -/
theorem C4_exception_event_passthrough
    (m : Machine σ Data) (g : σ) (c : C) (e : Exn) :
    ((ConnectionHandler.handle_exception m ⟨some (.suspended g)⟩ c e).genOps
        = [.throwE e]) ∧
    ((ConnectionHandler.handle_exception m ⟨some (.suspended g)⟩ c e).ops = []) ∧
    (∀ e', m g (.throwE e) = .raised e' →
      (ConnectionHandler.handle_exception m ⟨some (.suspended g)⟩ c e).raised = some e') ∧
    (∀ s', m g (.throwE e) = .yielded s' →
      (ConnectionHandler.handle_exception m ⟨some (.suspended g)⟩ c e).raised = none ∧
      (ConnectionHandler.handle_exception m ⟨some (.suspended g)⟩ c e).driver
        = ⟨some (.suspended s')⟩) := by
  refine ⟨?_, handleException_ops_nil m _ c e, fun e' h => ?_, fun s' h => ?_⟩
  · rcases hr : genResume m (.suspended g) (.throwE e) with ⟨g', oe⟩
    simp [ConnectionHandler.handle_exception, hr]
  · simp [ConnectionHandler.handle_exception, genResume, h]
  · simp [ConnectionHandler.handle_exception, genResume, h]

/-- Witness for C4 at a routine that re-raises a different failure. -/
theorem C4_exception_event_passthrough_witness :
    (ConnectionHandler.handle_exception mReraise ⟨some (.suspended ())⟩ (1 : Nat)
      (Exn.generatorExit 3)).raised = some (Exn.other 7) :=
  (C4_exception_event_passthrough mReraise () 1 (Exn.generatorExit 3)).2.2.1
    (Exn.other 7) rfl

/-- C5: with a transform configured, a free call rewrites exactly the
final positional argument by the transform, hands the routine factory
the rewritten argument list, and hands the very same transformed
object to the Driver constructor as the connection; the bound-method
path does the same with the owner prepended; and when priming
suspends, the `setHandler` registration happens on that same
transformed object. -/
theorem C5_transform_applied_once_to_last_argument
    (m : Machine σ Data) (fn : List V → σ) (f : V → V)
    (args : List V) (hne : args ≠ []) (inst : V) :
    (Handler.call m ⟨fn, some f⟩ args hne =
      ConnectionHandler.init m
        (.suspended (fn (args.dropLast ++ [f (args.getLast hne)])))
        (f (args.getLast hne))) ∧
    (Handler.get m ⟨fn, some f⟩ (some inst) =
      Sum.inr (fun connection =>
        ConnectionHandler.init m (.suspended (fn [inst, f connection]))
          (f connection))) ∧
    (∀ s', m (fn (args.dropLast ++ [f (args.getLast hne)])) .next = .yielded s' →
      (Handler.call m ⟨fn, some f⟩ args hne).ops
        = [(f (args.getLast hne), ConnOp.setHandler)]) := by
  have hcall : Handler.call m ⟨fn, some f⟩ args hne =
      ConnectionHandler.init m
        (.suspended (fn (args.dropLast ++ [f (args.getLast hne)])))
        (f (args.getLast hne)) := by
    simp [Handler.call, List.getLast_append]
  refine ⟨hcall, rfl, fun s' h => ?_⟩
  rw [hcall]
  simp [ConnectionHandler.init, genResume, h]

/-- Witness for C5 on a two-argument call with the transform
adding ten. -/
theorem C5_transform_applied_once_to_last_argument_witness :
    Handler.call mLoop ⟨List.sum, some (fun v => v + 10)⟩ [1, 2]
        (List.cons_ne_nil 1 [2]) =
      ConnectionHandler.init mLoop
        (.suspended (List.sum ([1, 2].dropLast ++
          [(fun v => v + 10) ([1, 2].getLast (List.cons_ne_nil 1 [2]))])))
        ((fun v => v + 10) ([1, 2].getLast (List.cons_ne_nil 1 [2]))) :=
  (C5_transform_applied_once_to_last_argument mLoop List.sum (fun v => v + 10)
    [1, 2] (List.cons_ne_nil 1 [2]) 0).1

/-- C6: a routine that suspends on every resume, given N input events
in order, is resumed exactly N times via `send`, in delivery order,
each time with exactly the datum of the corresponding event; no
connection operation (in particular no `close()`) is ever performed,
and the driver stays active. -/
theorem C6_looping_routine_resumed_in_order
    (m : Machine σ Data)
    (hloop : ∀ s data, ∃ s', m s (.send data) = .yielded s')
    (g : σ) (evs : List (C × Data)) :
    ((ConnectionHandler.run m ⟨some (.suspended g)⟩
        (evs.map (fun p => Event.input p.1 p.2))).ops = []) ∧
    ((ConnectionHandler.run m ⟨some (.suspended g)⟩
        (evs.map (fun p => Event.input p.1 p.2))).genOps
      = evs.map (fun p => Resume.send p.2)) ∧
    (∃ s', (ConnectionHandler.run m ⟨some (.suspended g)⟩
        (evs.map (fun p => Event.input p.1 p.2))).driver
      = ⟨some (.suspended s')⟩) := by
  induction evs generalizing g with
  | nil => exact ⟨rfl, rfl, g, rfl⟩
  | cons p evs ih =>
      obtain ⟨s', hs'⟩ := hloop g p.2
      have hstep :
          ConnectionHandler.handleEvent m ⟨some (.suspended g)⟩
              (Event.input p.1 p.2)
            = ⟨[], [.send p.2], none, ⟨some (.suspended s')⟩⟩ := by
        simp [ConnectionHandler.handleEvent, ConnectionHandler.handle_input,
          genResume, hs']
      obtain ⟨h1, h2, s'', h3⟩ := ih s'
      refine ⟨?_, ?_, s'', ?_⟩ <;>
        simp [ConnectionHandler.run, hstep, h1, h2, h3]

/-- Witness for C6: the remember-the-last-datum routine fed two
inputs. -/
theorem C6_looping_routine_resumed_in_order_witness :
    ((ConnectionHandler.run mLoop ⟨some (.suspended 0)⟩
        ([((0 : Nat), (5 : Nat)), (1, 6)].map (fun p => Event.input p.1 p.2))).ops
      = []) ∧
    ((ConnectionHandler.run mLoop ⟨some (.suspended 0)⟩
        ([((0 : Nat), (5 : Nat)), (1, 6)].map (fun p => Event.input p.1 p.2))).genOps
      = [((0 : Nat), (5 : Nat)), (1, 6)].map (fun p => Resume.send p.2)) ∧
    (∃ s', (ConnectionHandler.run mLoop ⟨some (.suspended 0)⟩
        ([((0 : Nat), (5 : Nat)), (1, 6)].map (fun p => Event.input p.1 p.2))).driver
      = ⟨some (.suspended s')⟩) :=
  C6_looping_routine_resumed_in_order mLoop (fun _ data => ⟨data, rfl⟩) 0
    [(0, 5), (1, 6)]

/-- C7: accessed on the class (no instance) the adapter is returned
unchanged; accessed through an instance it becomes a one-argument
callable that behaves exactly like the free-callable path applied to
the owner and the connection — transform applied the same way, the
same Driver construction. -/
theorem C7_descriptor_class_and_instance_access
    (m : Machine σ Data) (fn : List V → σ) (ca : Option (V → V)) :
    (Handler.get m ⟨fn, ca⟩ none = Sum.inl ⟨fn, ca⟩) ∧
    (∀ inst : V, ∃ k, Handler.get m ⟨fn, ca⟩ (some inst) = Sum.inr k ∧
      ∀ conn : V,
        k conn = Handler.call m ⟨fn, ca⟩ [inst, conn] (List.cons_ne_nil _ _)) := by
  refine ⟨rfl, fun inst => ?_⟩
  cases ca with
  | none => exact ⟨_, rfl, fun conn => rfl⟩
  | some f => exact ⟨_, rfl, fun conn => rfl⟩

/-- C8 as stated is false: a dispatcher that keeps delivering input
events after the routine has terminated makes the driver call
`close()` once per such event — here twice in one reachable run —
contradicting the claimed single `close()`. -/
theorem C8_counterexample_double_close :
    ((ConnectionHandler.run mOnce
        (ConnectionHandler.init mOnce (.suspended ()) (0 : Nat)).driver
        [.input 0 5, .input 0 6]).ops
      = [(0, ConnOp.close), (0, ConnOp.close)]) ∧
    ¬ ((ConnectionHandler.run mOnce
        (ConnectionHandler.init mOnce (.suspended ()) (0 : Nat)).driver
        [.input 0 5, .input 0 6]).ops.count (0, ConnOp.close) ≤ 1) := by
  decide

/-- C8 (amended): in every reachable sequence of driver operations,
construction performs at most the single `setHandler` registration,
close and exception events never perform a connection operation, an
input event performs at most one `close()` — and only when the resume
raised `StopIteration` — and hence every connection operation in any
run after construction is such a `close`. -/
theorem C8_amended_ops_discipline (m : Machine σ Data) :
    (∀ (g : GenState σ) (c : C),
      (ConnectionHandler.init m g c).ops = [(c, ConnOp.setHandler)] ∨
        (ConnectionHandler.init m g c).ops = []) ∧
    (∀ (d : ConnectionHandler σ) (c : C) (reason : Nat),
      (ConnectionHandler.handle_close m d c reason).ops = []) ∧
    (∀ (d : ConnectionHandler σ) (c : C) (e : Exn),
      (ConnectionHandler.handle_exception m d c e).ops = []) ∧
    (∀ (d : ConnectionHandler σ) (c : C) (data : Data),
      (ConnectionHandler.handle_input m d c data).ops = [] ∨
      ((ConnectionHandler.handle_input m d c data).ops = [(c, ConnOp.close)] ∧
        ∃ g g', d.gen = some g ∧
          genResume m g (.send data) = (g', some Exn.stopIteration))) ∧
    (∀ (d : ConnectionHandler σ) (evs : List (Event Data C)) (p : C × ConnOp),
      p ∈ (ConnectionHandler.run m d evs).ops → p.2 = ConnOp.close) :=
  ⟨init_ops_eq m, handleClose_ops_nil m, handleException_ops_nil m,
    handleInput_ops_eq m, run_ops_close m⟩

/-- Witness for C8 (amended): a close event on an active driver
performs no connection operation, and a membership instance of the
run-level discipline. -/
theorem C8_amended_ops_discipline_witness :
    ((ConnectionHandler.handle_close mOnce ⟨some (.suspended ())⟩ (3 : Nat) 7).ops
      = []) ∧
    (((0 : Nat), ConnOp.close).2 = ConnOp.close) :=
  ⟨(C8_amended_ops_discipline mOnce).2.1 ⟨some (.suspended ())⟩ 3 7,
    (C8_amended_ops_discipline mOnce).2.2.2.2 ⟨some (.suspended ())⟩
      [.input 0 5, .input 0 6] (0, ConnOp.close) (by decide)⟩

/-- C9: when the routine terminates during priming, the constructed
driver's `gen` attribute was never assigned, so delivering any input,
close, or exception event directly to it raises `AttributeError` —
touching neither a generator nor a connection — rather than being a
harmless no-op. -/
theorem C9_no_gen_attribute_after_priming_termination
    (m : Machine σ Data) (g : σ) (c : C)
    (hstop : m g .next = .raised .stopIteration) :
    ((ConnectionHandler.init m (.suspended g) c).driver.gen = none) ∧
    (∀ (c' : C) (data : Data),
      ConnectionHandler.handle_input m
          (ConnectionHandler.init m (.suspended g) c).driver c' data
        = ⟨[], [], some .attributeError,
            (ConnectionHandler.init m (.suspended g) c).driver⟩) ∧
    (∀ (c' : C) (reason : Nat),
      ConnectionHandler.handle_close m
          (ConnectionHandler.init m (.suspended g) c).driver c' reason
        = ⟨[], [], some .attributeError,
            (ConnectionHandler.init m (.suspended g) c).driver⟩) ∧
    (∀ (c' : C) (e : Exn),
      ConnectionHandler.handle_exception m
          (ConnectionHandler.init m (.suspended g) c).driver c' e
        = ⟨[], [], some .attributeError,
            (ConnectionHandler.init m (.suspended g) c).driver⟩) := by
  have hd : (ConnectionHandler.init m (.suspended g) c).driver
      = (⟨none⟩ : ConnectionHandler σ) := by
    simp [ConnectionHandler.init, genResume, hstop]
  rw [hd]
  exact ⟨rfl, fun c' data => rfl, fun c' reason => rfl, fun c' e => rfl⟩

/-- Witness for C9 at the immediately-terminating routine. -/
theorem C9_no_gen_attribute_after_priming_termination_witness :
    (ConnectionHandler.init mStop (.suspended ()) ((3 : Nat))).driver.gen = none :=
  (C9_no_gen_attribute_after_priming_termination mStop () 3 rfl).1

/-- C10: the driver retains no connection from construction; when the
routine terminates on an input event, the `close()` goes to the
connection object delivered with that event, so with a different
event connection the construction-time connection is not the one
closed. -/
theorem C10_close_uses_event_connection
    (m : Machine σ Data) (g s₁ : σ) (c₀ c₁ : C) (data : Data)
    (hprime : m g .next = .yielded s₁)
    (hterm : m s₁ (.send data) = .raised .stopIteration) :
    ((ConnectionHandler.handle_input m
        (ConnectionHandler.init m (.suspended g) c₀).driver c₁ data).ops
      = [(c₁, ConnOp.close)]) ∧
    (c₀ ≠ c₁ →
      (c₀, ConnOp.close) ∉ (ConnectionHandler.handle_input m
        (ConnectionHandler.init m (.suspended g) c₀).driver c₁ data).ops) := by
  have hd : (ConnectionHandler.init m (.suspended g) c₀).driver
      = (⟨some (.suspended s₁)⟩ : ConnectionHandler σ) := by
    simp [ConnectionHandler.init, genResume, hprime]
  rw [hd]
  have hops : (ConnectionHandler.handle_input m
      (⟨some (.suspended s₁)⟩ : ConnectionHandler σ) c₁ data).ops
      = [(c₁, ConnOp.close)] := by
    simp [ConnectionHandler.handle_input, genResume, hterm]
  refine ⟨hops, fun hne hmem => ?_⟩
  rw [hops, List.mem_singleton] at hmem
  exact hne (congrArg Prod.fst hmem)

/-- Witness for C10 with distinct construction-time and event-time
connections. -/
theorem C10_close_uses_event_connection_witness :
    ((ConnectionHandler.handle_input mOnce
        (ConnectionHandler.init mOnce (.suspended ()) (0 : Nat)).driver 1 9).ops
      = [(1, ConnOp.close)]) ∧
    ((0, ConnOp.close) ∉ (ConnectionHandler.handle_input mOnce
        (ConnectionHandler.init mOnce (.suspended ()) (0 : Nat)).driver 1 9).ops) :=
  ⟨(C10_close_uses_event_connection mOnce () () 0 1 9 rfl rfl).1,
    (C10_close_uses_event_connection mOnce () () 0 1 9 rfl rfl).2 (by decide)⟩

end ZcNgi
